import Mathlib

/-!
Verification of the KonomiTV capture compositing worker
(src/client/src/workers/CaptureCompositor.ts).

The worker is a single-threaded JavaScript Web Worker.  Its `composite()`
method starts at most two async production paths (a captioned one and a
normal one); each async function body runs synchronously up to its first
`await` (which is `OffscreenCanvas.convertToBlob` inside `exportToBlob`),
and its continuation (the EXIF serialization step) only runs after the
whole synchronous call to `composite()` has finished, by the JavaScript
run-to-completion rule.  The shallow embedding therefore splits every
production path into

  * a synchronous part (`...Sync`): the EXIF-flag prologue writes on the
    shared `capture_exif_data` record plus all canvas drawing, and
  * a serialization part (`exportToBlob`): reads the shared record as it
    stands after all scheduled prologues have run.

Pixels are modelled over the rationals, images as dimension-indexed pixel
functions.  Every `drawImage` call in the worker draws a source whose
dimensions equal the destination canvas over the full canvas rectangle
(the layers are produced at the frame's dimensions, and the temporary
comment canvas is created with the destination's dimensions), so the
scaling step of `drawImage` is the identity and is omitted.

External collaborators that are not part of this repository are passed in
as parameters instead of being modelled: the text rasterizer behind
`fillText` (a `rasterize` argument), the JPEG encoder behind
`convertToBlob` (an `encode` argument), the `dayjs` ISO8601 parser (a
`parse` argument) and the application version string `Utils.version` (a
`ver` argument).  The dayjs format string 'YYYY:MM:DD HH:mm:ss', the
UCS-2 (UTF-16LE) encoding of `Buffer.from(_, 'ucs2')` and the
`JSON.stringify` serialization of the metadata record are modelled
faithfully.  Numeric EXIF record fields are modelled as integers.
-/

/-- RGB pixel of an opaque surface (the worker's output canvases are all
created with alpha disabled), modelled over the rationals. -/
@[ext]
structure RGB where
  r : ℚ
  g : ℚ
  b : ℚ

/-- RGBA pixel of a layer that carries transparency (subtitle layer,
superimposition layer, rendered comment layer). -/
@[ext]
structure RGBA where
  r : ℚ
  g : ℚ
  b : ℚ
  a : ℚ

/-- An opaque raster image: the captured video frame (`ImageBitmap` of an
opaque video surface) or an output canvas backing store. -/
@[ext]
structure Image where
  width : ℕ
  height : ℕ
  pixel : ℕ → ℕ → RGB

/-- A raster layer with an alpha channel. -/
@[ext]
structure AlphaImage where
  width : ℕ
  height : ℕ
  pixel : ℕ → ℕ → RGBA

/-- A parsed calendar timestamp, the result of `dayjs(iso_string)`. -/
structure DateTimeRec where
  year : ℕ
  month : ℕ
  day : ℕ
  hour : ℕ
  minute : ℕ
  second : ℕ
deriving DecidableEq

/-- The EXIF metadata record of the worker, interface `ICaptureExifData`
(CaptureCompositor.ts lines 35-62).  ISO8601 timestamps stay strings as
in the source; the numeric fields are modelled as integers. -/
structure ICaptureExifData where
  captured_at : String
  captured_playback_position : Int
  network_id : Int
  service_id : Int
  event_id : Int
  title : String
  description : String
  start_time : String
  end_time : String
  duration : Int
  caption_text : Option String
  is_caption_composited : Bool
  is_comment_composited : Bool
deriving DecidableEq

/-- One hexadecimal digit, for JSON control-character escapes. -/
def hexDigit (n : ℕ) : String :=
  if n < 10 then toString n
  else if n = 10 then "a" else if n = 11 then "b" else if n = 12 then "c"
  else if n = 13 then "d" else if n = 14 then "e" else "f"

/-- Escape of a single character inside a JSON string literal, as
performed by JavaScript's JSON.stringify. -/
def jsonEscapeChar (c : Char) : String :=
  if c = Char.ofNat 34 then "\\\""
  else if c = Char.ofNat 92 then "\\\\"
  else if c = Char.ofNat 8 then "\\b"
  else if c = Char.ofNat 9 then "\\t"
  else if c = Char.ofNat 10 then "\\n"
  else if c = Char.ofNat 12 then "\\f"
  else if c = Char.ofNat 13 then "\\r"
  else if c.toNat < 32 then
    "\\u00" ++ hexDigit (c.toNat / 16) ++ hexDigit (c.toNat % 16)
  else String.singleton c

/-- JSON string literal for a given string. -/
def jsonStr (s : String) : String :=
  "\"" ++ String.join (s.data.map jsonEscapeChar) ++ "\""

/-- JSON rendering of a boolean. -/
def jsonBool (b : Bool) : String := if b then "true" else "false"

/-- JSON rendering of a nullable string. -/
def jsonOptStr : Option String → String
  | none => "null"
  | some s => jsonStr s

/-- JSON.stringify of the `ICaptureExifData` record, with the keys in the
declaration order of the interface (which is the insertion order of the
object built by the caller). -/
def jsonStringify (d : ICaptureExifData) : String :=
  "\x7b" ++
  "\"captured_at\":" ++ jsonStr d.captured_at ++
  ",\"captured_playback_position\":" ++ toString d.captured_playback_position ++
  ",\"network_id\":" ++ toString d.network_id ++
  ",\"service_id\":" ++ toString d.service_id ++
  ",\"event_id\":" ++ toString d.event_id ++
  ",\"title\":" ++ jsonStr d.title ++
  ",\"description\":" ++ jsonStr d.description ++
  ",\"start_time\":" ++ jsonStr d.start_time ++
  ",\"end_time\":" ++ jsonStr d.end_time ++
  ",\"duration\":" ++ toString d.duration ++
  ",\"caption_text\":" ++ jsonOptStr d.caption_text ++
  ",\"is_caption_composited\":" ++ jsonBool d.is_caption_composited ++
  ",\"is_comment_composited\":" ++ jsonBool d.is_comment_composited ++
  "\x7d"

/-- UTF-16 code units of a character (surrogate pair above U+FFFF). -/
def utf16CodeUnits (c : Char) : List ℕ :=
  let n := c.toNat
  if n < 65536 then [n]
  else [55296 + (n - 65536) / 1024, 56320 + (n - 65536) % 1024]

/-- Byte sequence of `Buffer.from(s, 'ucs2')`: UTF-16 code units in
little-endian byte order. -/
def ucs2Bytes (s : String) : List ℕ :=
  (s.data.flatMap utf16CodeUnits).flatMap (fun u => [u % 256, u / 256])

/-- Zero-padding of a number to two digits (dayjs tokens MM DD HH mm ss). -/
def pad2 (n : ℕ) : String :=
  if n < 10 then "0" ++ toString n else toString n

/-- Zero-padding of a number to four digits (dayjs token YYYY). -/
def pad4 (n : ℕ) : String :=
  if n < 10 then "000" ++ toString n
  else if n < 100 then "00" ++ toString n
  else if n < 1000 then "0" ++ toString n
  else toString n

/-- The timestamp format `dayjs(...).format('YYYY:MM:DD HH:mm:ss')` used
at CaptureCompositor.ts line 336: every component separated by colons
except the space between date and time. -/
def formatExifDateTime (t : DateTimeRec) : String :=
  pad4 t.year ++ ":" ++ pad2 t.month ++ ":" ++ pad2 t.day ++ " " ++
  pad2 t.hour ++ ":" ++ pad2 t.minute ++ ":" ++ pad2 t.second

/-- Tags of the piexifjs primary image IFD (`piexif.TagValues.ImageIFD`)
that are relevant here: the ones the worker writes, plus `Orientation`,
which the library offers but the worker never writes. -/
inductive ImageIFDTag
  | XResolution
  | YResolution
  | ResolutionUnit
  | YCbCrPositioning
  | Orientation
  | DateTime
  | Software
  | XPComment
deriving DecidableEq

/-- Tags of the piexifjs Exif (capture detail) IFD written by the worker. -/
inductive ExifIFDTag
  | ExifVersion
  | ComponentsConfiguration
  | FlashpixVersion
  | ColorSpace
  | DateTimeOriginal
  | DateTimeDigitized
deriving DecidableEq

/-- Value of one EXIF tag: a rational (numerator, denominator) pair, a
small integer, an ASCII string, or a raw byte array. -/
inductive TagValue
  | rational : ℕ → ℕ → TagValue
  | short : ℕ → TagValue
  | ascii : String → TagValue
  | bytes : List ℕ → TagValue
deriving DecidableEq

/-- The piexifjs EXIF dictionary built by `setEXIFDataToCapture`: the
primary image group (source key '0th') and the capture detail group
(source key 'Exif'), each an ordered association list. -/
structure IExif where
  zeroth : List (ImageIFDTag × TagValue)
  exifIFD : List (ExifIFDTag × TagValue)
deriving DecidableEq

/-- The fixed ComponentsConfiguration marker written at
CaptureCompositor.ts line 360: the four bytes 01 02 03 00 as a string. -/
def componentsConfigurationMarker : String :=
  String.mk [Char.ofNat 1, Char.ofNat 2, Char.ofNat 3, Char.ofNat 0]

/-- The EXIF dictionary construction of `setEXIFDataToCapture`
(CaptureCompositor.ts lines 334-367).  `parse` is the external `dayjs`
ISO8601 parser and `ver` the external `Utils.version` string. -/
def buildExif (parse : String → DateTimeRec) (ver : String)
    (d : ICaptureExifData) : IExif :=
  let datetime := formatExifDateTime (parse d.captured_at)
  { zeroth := [
      (ImageIFDTag.XResolution, TagValue.rational 72 1),
      (ImageIFDTag.YResolution, TagValue.rational 72 1),
      (ImageIFDTag.ResolutionUnit, TagValue.short 2),
      (ImageIFDTag.YCbCrPositioning, TagValue.short 1),
      (ImageIFDTag.DateTime, TagValue.ascii datetime),
      (ImageIFDTag.Software, TagValue.ascii ("KonomiTV version " ++ ver)),
      (ImageIFDTag.XPComment, TagValue.bytes (ucs2Bytes (jsonStringify d)))],
    exifIFD := [
      (ExifIFDTag.ExifVersion, TagValue.ascii "0230"),
      (ExifIFDTag.ComponentsConfiguration, TagValue.ascii componentsConfigurationMarker),
      (ExifIFDTag.FlashpixVersion, TagValue.ascii "0100"),
      (ExifIFDTag.ColorSpace, TagValue.short 1),
      (ExifIFDTag.DateTimeOriginal, TagValue.ascii datetime),
      (ExifIFDTag.DateTimeDigitized, TagValue.ascii datetime)] }

/-- A finished output payload: the encoded image bytes together with the
spliced-in EXIF block.  `embedded_record` is the structured metadata
record whose JSON serialization the EXIF block carries in its XPComment
tag (see `buildExif`); it is recorded alongside so that statements about
the embedded metadata need not re-parse the XPComment bytes. -/
structure Blob where
  bytes : List ℕ
  exif : IExif
  embedded_record : ICaptureExifData
deriving DecidableEq

/-- The EXIF splice step `setEXIFDataToCapture` (CaptureCompositor.ts
lines 332-391): builds the EXIF dictionary from the metadata record as it
stands at serialization time and splices it into the encoded image bytes,
leaving the compressed pixel data unchanged. -/
def setEXIFDataToCapture (parse : String → DateTimeRec) (ver : String)
    (d : ICaptureExifData) (encoded : List ℕ) : Blob :=
  { bytes := encoded, exif := buildExif parse ver d, embedded_record := d }

/-- The export step `exportToBlob` (CaptureCompositor.ts lines 399-411):
JPEG-encode the canvas (`encode` stands for the external
`convertToBlob` encoder) and splice the EXIF block into the result.
`d` is the shared metadata record as read at serialization time. -/
def exportToBlob (encode : Image → List ℕ) (parse : String → DateTimeRec)
    (ver : String) (d : ICaptureExifData) (canvas : Image) : Blob :=
  setEXIFDataToCapture parse ver d (encode canvas)

/-- One comment item of `ICaptureCommentData.comments`
(CaptureCompositor.ts lines 21-31): position in the reference (DOM
container) coordinate space, CSS color, font size and text. -/
structure CommentItem where
  top : ℚ
  left : ℚ
  color : String
  font_size : ℚ
  text : String

/-- The comment overlay description, interface `ICaptureCommentData`
(CaptureCompositor.ts lines 14-32): the reference coordinate space the
comment positions were authored in, a global opacity, and the ordered
comment items. -/
structure ICaptureCommentData where
  container_width : ℚ
  container_height : ℚ
  opacity : ℚ
  comments : List CommentItem

/-- Canvas text baseline; the worker switches it from the default
`alphabetic` to `top` before drawing comments. -/
inductive TextBaseline
  | alphabetic
  | top
deriving DecidableEq

/-- The font family list of the comment font assignment at
CaptureCompositor.ts line 310. -/
def commentFontFamily : String :=
  "\x27Open Sans\x27,\x27Hiragino Sans\x27,\x27Noto Sans JP\x27,sans-serif"

/-- The comment text-shadow color at CaptureCompositor.ts line 315:
black at 90 percent opacity. -/
def commentShadowColor : String := "rgba(0, 0, 0, 0.9)"

/-- The drawing-relevant state of an OffscreenCanvas 2D context: text
baseline, fill style, font (decomposed into weight, size and family),
shadow parameters and the global alpha.  The worker's font property
assignment writes the string
bold (size)px 'Open Sans','Hiragino Sans','Noto Sans JP',sans-serif,
modelled here by the three font fields. -/
structure Ctx2DState where
  textBaseline : TextBaseline
  fillStyle : String
  fontBold : Bool
  fontSizePx : ℚ
  fontFamily : String
  shadowOffsetX : ℚ
  shadowOffsetY : ℚ
  shadowBlur : ℚ
  shadowColor : String
  globalAlpha : ℚ

/-- The initial state of a fresh 2D context, per the canvas
specification: alphabetic baseline, black fill, 10px sans-serif font, no
shadow (transparent black shadow color), global alpha 1. -/
def initialCtx2DState : Ctx2DState :=
  { textBaseline := TextBaseline.alphabetic
    fillStyle := "#000000"
    fontBold := false
    fontSizePx := 10
    fontFamily := "sans-serif"
    shadowOffsetX := 0
    shadowOffsetY := 0
    shadowBlur := 0
    shadowColor := "rgba(0, 0, 0, 0)"
    globalAlpha := 1 }

/-- One `fillText` invocation recorded with the context state in force
when it ran: the drawn text, its position, and the full text/shadow
styling. -/
structure TextDraw where
  text : String
  x : ℚ
  y : ℚ
  state : Ctx2DState

/-- The comment drawing loop of `compositeComments`
(CaptureCompositor.ts lines 307-317): for each comment, in input order,
set the fill style, the font, and the four shadow parameters on the
comment canvas context, then record the `fillText` call at
(left * width scale, top * height scale).  The context state is threaded
through the loop exactly as the imperative code mutates it. -/
def drawCommentsLoop (wr hr : ℚ) : Ctx2DState → List CommentItem → List TextDraw
  | _, [] => []
  | st, c :: rest =>
    let st' := { st with
      fillStyle := c.color
      fontBold := true
      fontSizePx := c.font_size * wr
      fontFamily := commentFontFamily
      shadowOffsetX := 1.2 * wr
      shadowOffsetY := 1.2 * wr
      shadowBlur := 4 * wr
      shadowColor := commentShadowColor }
    { text := c.text, x := c.left * wr, y := c.top * hr, state := st' } ::
      drawCommentsLoop wr hr st' rest

/-- The `fillText` trace of `compositeComments` on a comment canvas of
the given dimensions (CaptureCompositor.ts lines 297-317): the scale
factors divide the canvas dimensions by the reference container
dimensions, the baseline is set to `top` once before the loop, and the
loop then records one draw per comment. -/
def commentDraws (data : ICaptureCommentData) (w h : ℕ) : List TextDraw :=
  let width_ratio := (w : ℚ) / data.container_width
  let height_ratio := (h : ℚ) / data.container_height
  drawCommentsLoop width_ratio height_ratio
    { initialCtx2DState with textBaseline := TextBaseline.top } data.comments

/-- Source-over blending of one layer pixel onto an opaque destination
pixel under a global alpha: the effective source alpha is the layer
alpha times the global alpha. -/
def sourceOver (dst : RGB) (src : RGBA) (ga : ℚ) : RGB :=
  let a := src.a * ga
  { r := a * src.r + (1 - a) * dst.r
    g := a * src.g + (1 - a) * dst.g
    b := a * src.b + (1 - a) * dst.b }

/-- Full-strength source-over blending of a layer onto an opaque
destination (no global-alpha attenuation). -/
def sourceOverImage (dst : Image) (src : AlphaImage) : Image :=
  { dst with pixel := fun x y =>
      { r := (src.pixel x y).a * (src.pixel x y).r + (1 - (src.pixel x y).a) * (dst.pixel x y).r
        g := (src.pixel x y).a * (src.pixel x y).g + (1 - (src.pixel x y).a) * (dst.pixel x y).g
        b := (src.pixel x y).a * (src.pixel x y).b + (1 - (src.pixel x y).a) * (dst.pixel x y).b } }

/-- A `drawImage(layer, 0, 0, canvas.width, canvas.height)` call of a
translucent layer whose dimensions equal the canvas dimensions, under
the context's current global alpha. -/
def drawAlphaImage (dst : Image) (src : AlphaImage) (ga : ℚ) : Image :=
  { dst with pixel := fun x y => sourceOver (dst.pixel x y) (src.pixel x y) ga }

/-- A `drawImage(frame, 0, 0, canvas.width, canvas.height)` call of the
opaque captured frame, which covers the canvas completely. -/
def drawOpaqueImage (dst : Image) (src : Image) : Image :=
  { dst with pixel := src.pixel }

/-- A fresh OffscreenCanvas with alpha disabled: an opaque black
backing store. -/
def blankCanvas (w h : ℕ) : Image :=
  { width := w, height := h, pixel := fun _ _ => { r := 0, g := 0, b := 0 } }

/-- The `transferFromImageBitmap` call of the direct path
(CaptureCompositor.ts line 172): the canvas backing store becomes the
frame's bitmap with no conversion or blend step, consuming the bitmap. -/
def transferFromImageBitmap (_dst : Image) (src : Image) : Image :=
  { width := src.width, height := src.height, pixel := src.pixel }

/-- The `compositeComments` method (CaptureCompositor.ts lines 282-324):
render all comments onto a transparent temporary canvas of the target's
dimensions (the rasterization of the recorded `fillText` trace is the
external text rasterizer `rasterize`), then set the target context's
global alpha to the overlay's opacity and merge the whole rendered layer
onto the target with a single `drawImage`. -/
def compositeComments (rasterize : ℕ → ℕ → List TextDraw → AlphaImage)
    (canvas : Image) (data : ICaptureCommentData) : Image :=
  let comment_layer := rasterize canvas.width canvas.height
    (commentDraws data canvas.width canvas.height)
  drawAlphaImage canvas comment_layer data.opacity

/-- The capture save mode (CaptureCompositor.ts line 66). -/
inductive CaptureMode
  | VideoOnly
  | CompositingCaption
  | Both
deriving DecidableEq

/-- The compositing options, interface `ICaptureCompositorOptions`
(CaptureCompositor.ts lines 64-77): mode, captured frame, optional
subtitle and superimposition layers, optional comment overlay, and the
shared mutable EXIF metadata record. -/
structure ICaptureCompositorOptions where
  mode : CaptureMode
  capture : Image
  caption : Option AlphaImage
  superimpose : Option AlphaImage
  capture_comment_data : Option ICaptureCommentData
  capture_exif_data : ICaptureExifData

/-- The result record, interface `ICaptureCompositorResult`
(CaptureCompositor.ts lines 79-84). -/
structure ICaptureCompositorResult where
  capture_normal : Option Blob
  capture_caption : Option Blob

/-- The scheduling condition of the captioned production
(CaptureCompositor.ts line 124): mode is CompositingCaption or Both and
a subtitle layer is present. -/
def captionScheduled (o : ICaptureCompositorOptions) : Bool :=
  (o.mode == CaptureMode.CompositingCaption || o.mode == CaptureMode.Both)
    && o.caption.isSome

/-- The scheduling condition of the normal production
(CaptureCompositor.ts line 130): mode is VideoOnly or Both, or mode is
CompositingCaption but no subtitle layer is present. -/
def normalScheduled (o : ICaptureCompositorOptions) : Bool :=
  (o.mode == CaptureMode.VideoOnly || o.mode == CaptureMode.Both)
    || (o.mode == CaptureMode.CompositingCaption && o.caption.isNone)

/-- The orchestrator selects the zero-copy direct-transfer path when the
normal production is scheduled and its branch condition at
CaptureCompositor.ts line 132 holds: no superimposition layer and no
comment overlay. -/
def selectsDirectTransfer (o : ICaptureCompositorOptions) : Bool :=
  normalScheduled o && (o.superimpose.isNone && o.capture_comment_data.isNone)

/-- The synchronous part of `compositeInCaptionMode`
(CaptureCompositor.ts lines 231-269): overwrite the shared EXIF record's
flags (caption composited, comment composited iff a comment overlay is
present), then draw frame, optional superimposition layer, subtitle
layer and optional comments in that fixed order.  `composite` only calls
this with a present subtitle layer (the source asserts it). -/
def compositeInCaptionModeSync (rasterize : ℕ → ℕ → List TextDraw → AlphaImage)
    (o : ICaptureCompositorOptions) (e : ICaptureExifData) :
    ICaptureExifData × Image :=
  let e' := { e with
    is_caption_composited := true
    is_comment_composited := o.capture_comment_data.isSome }
  let canvas0 := drawOpaqueImage (blankCanvas o.capture.width o.capture.height) o.capture
  let canvas1 := match o.superimpose with
    | some s => drawAlphaImage canvas0 s 1
    | none => canvas0
  let canvas2 := match o.caption with
    | some c => drawAlphaImage canvas1 c 1
    | none => canvas1
  let canvas3 := match o.capture_comment_data with
    | some cd => compositeComments rasterize canvas2 cd
    | none => canvas2
  (e', canvas3)

/-- The synchronous part of `compositeInNormalMode`
(CaptureCompositor.ts lines 185-219): overwrite the shared EXIF record's
flags (caption not composited, comment composited iff a comment overlay
is present), then draw frame, optional superimposition layer and
optional comments. -/
def compositeInNormalModeSync (rasterize : ℕ → ℕ → List TextDraw → AlphaImage)
    (o : ICaptureCompositorOptions) (e : ICaptureExifData) :
    ICaptureExifData × Image :=
  let e' := { e with
    is_caption_composited := false
    is_comment_composited := o.capture_comment_data.isSome }
  let canvas0 := drawOpaqueImage (blankCanvas o.capture.width o.capture.height) o.capture
  let canvas1 := match o.superimpose with
    | some s => drawAlphaImage canvas0 s 1
    | none => canvas0
  let canvas2 := match o.capture_comment_data with
    | some cd => compositeComments rasterize canvas1 cd
    | none => canvas1
  (e', canvas2)

/-- The synchronous part of `compositeInNormalDirectMode`
(CaptureCompositor.ts lines 155-173): overwrite the shared EXIF record's
flags to false/false, then transfer the frame bitmap into the canvas
with no blend step, consuming the frame. -/
def compositeInNormalDirectModeSync (o : ICaptureCompositorOptions)
    (e : ICaptureExifData) : ICaptureExifData × Image :=
  let e' := { e with
    is_caption_composited := false
    is_comment_composited := false }
  (e', transferFromImageBitmap (blankCanvas o.capture.width o.capture.height) o.capture)

/-- The `composite` orchestrator (CaptureCompositor.ts lines 114-146)
under the JavaScript event-loop semantics.  The captioned path is
started first (deliberately, per the source comment at lines 116-117,
so that its synchronous frame draw precedes the direct path's
frame-consuming transfer); each path's flag prologue and drawing run
synchronously at start, while both serialization steps run only after
the whole synchronous phase and therefore read the shared EXIF record
in its final state `e2`. -/
def composite (rasterize : ℕ → ℕ → List TextDraw → AlphaImage)
    (encode : Image → List ℕ) (parse : String → DateTimeRec) (ver : String)
    (o : ICaptureCompositorOptions) : ICaptureCompositorResult :=
  let e0 := o.capture_exif_data
  let e1 := if captionScheduled o then (compositeInCaptionModeSync rasterize o e0).1 else e0
  let e2 := if normalScheduled o then
      (if o.superimpose.isNone && o.capture_comment_data.isNone then
        (compositeInNormalDirectModeSync o e1).1
      else
        (compositeInNormalModeSync rasterize o e1).1)
    else e1
  { capture_caption :=
      if captionScheduled o then
        some (exportToBlob encode parse ver e2 (compositeInCaptionModeSync rasterize o e0).2)
      else none
    capture_normal :=
      if normalScheduled o then
        some (exportToBlob encode parse ver e2
          (if o.superimpose.isNone && o.capture_comment_data.isNone then
            (compositeInNormalDirectModeSync o e1).2
          else
            (compositeInNormalModeSync rasterize o e1).2))
      else none }

/-- The method `compositeInNormalDirectMode` taken in isolation, as the
async function the source declares: flag prologue, direct transfer, then
export with the record as this path wrote it. -/
def compositeInNormalDirectMode (encode : Image → List ℕ)
    (parse : String → DateTimeRec) (ver : String)
    (o : ICaptureCompositorOptions) (e : ICaptureExifData) :
    ICaptureExifData × Blob :=
  let r := compositeInNormalDirectModeSync o e
  (r.1, exportToBlob encode parse ver r.1 r.2)

/-- The method `compositeInNormalMode` taken in isolation, as the async
function the source declares: flag prologue, full compositing, then
export with the record as this path wrote it. -/
def compositeInNormalMode (rasterize : ℕ → ℕ → List TextDraw → AlphaImage)
    (encode : Image → List ℕ) (parse : String → DateTimeRec) (ver : String)
    (o : ICaptureCompositorOptions) (e : ICaptureExifData) :
    ICaptureExifData × Blob :=
  let r := compositeInNormalModeSync rasterize o e
  (r.1, exportToBlob encode parse ver r.1 r.2)

/-- Identifier of a production path. -/
inductive PathId
  | caption
  | normal
deriving DecidableEq

/-- An event touching the captured frame bitmap during the synchronous
phase of `composite`: a `drawImage(this.options.capture, ...)` call by
one of the paths, or the consumption of the frame by the direct path
(`transferFromImageBitmap` immediately followed by `close`). -/
inductive FrameEvent
  | drawFrame : PathId → FrameEvent
  | consumeFrame : FrameEvent
deriving DecidableEq

/-- Whether an event consumes (transfers ownership of / closes) the
frame bitmap. -/
def isConsumeEvent : FrameEvent → Bool
  | FrameEvent.consumeFrame => true
  | _ => false

/-- The sequence of frame-touching events of one `composite` run, in the
order the single-threaded worker executes them: the captioned path's
synchronous segment runs first and draws the frame (line 256); the
normal path's synchronous segment runs second and either consumes the
frame (direct path, lines 172-173) or draws it (full path, line 209).
The asynchronous continuations (encode and EXIF splice) never touch the
frame. -/
def syncFrameEvents (o : ICaptureCompositorOptions) : List FrameEvent :=
  (if captionScheduled o then [FrameEvent.drawFrame PathId.caption] else []) ++
  (if normalScheduled o then
    (if o.superimpose.isNone && o.capture_comment_data.isNone then
      [FrameEvent.consumeFrame]
    else
      [FrameEvent.drawFrame PathId.normal])
  else [])

/-- An event list is frame-safe when the first frame-consuming event, if
any, is the last event of the list: the frame is consumed at most once,
and no event draws or otherwise references the frame after it has been
consumed. -/
def frameSafe : List FrameEvent → Bool
  | [] => true
  | e :: rest => if isConsumeEvent e then rest.isEmpty else frameSafe rest

/-- A trivial text rasterizer instance, used to evaluate the pipeline at
concrete inputs: a fully transparent layer. -/
def trivialRasterize : ℕ → ℕ → List TextDraw → AlphaImage :=
  fun w h _ => { width := w, height := h, pixel := fun _ _ => { r := 0, g := 0, b := 0, a := 0 } }

/-- A trivial JPEG encoder instance for concrete evaluation. -/
def trivialEncode : Image → List ℕ := fun _ => []

/-- A trivial ISO8601 parser instance for concrete evaluation. -/
def trivialParse : String → DateTimeRec :=
  fun _ => { year := 0, month := 0, day := 0, hour := 0, minute := 0, second := 0 }

/-- A concrete one-pixel captured frame. -/
def sampleImage : Image :=
  { width := 1, height := 1, pixel := fun _ _ => { r := 0, g := 0, b := 0 } }

/-- A concrete one-pixel transparent layer. -/
def sampleLayer : AlphaImage :=
  { width := 1, height := 1, pixel := fun _ _ => { r := 0, g := 0, b := 0, a := 0 } }

/-- A concrete metadata record with both composited flags initially
false. -/
def sampleExifData : ICaptureExifData :=
  { captured_at := ""
    captured_playback_position := 0
    network_id := 0
    service_id := 0
    event_id := 0
    title := ""
    description := ""
    start_time := ""
    end_time := ""
    duration := 0
    caption_text := none
    is_caption_composited := false
    is_comment_composited := false }

/-- Concrete options with mode Both, a subtitle layer present, and no
superimposition layer or comment overlay: both productions are
scheduled and the normal one takes the direct-transfer path. -/
def sampleBothOptions : ICaptureCompositorOptions :=
  { mode := CaptureMode.Both
    capture := sampleImage
    caption := some sampleLayer
    superimpose := none
    capture_comment_data := none
    capture_exif_data := sampleExifData }

/-- Concrete options with mode VideoOnly and no extra layers: only the
normal production is scheduled, on the direct-transfer path. -/
def sampleNormalOptions : ICaptureCompositorOptions :=
  { mode := CaptureMode.VideoOnly
    capture := sampleImage
    caption := none
    superimpose := none
    capture_comment_data := none
    capture_exif_data := sampleExifData }

/-- C1: for every job, `composite` produces exactly the output-presence
pattern of the decision table: the captioned output is present iff the
mode is CompositingCaption or Both and the subtitle layer is non-null;
the normal output is present iff the mode is VideoOnly or Both, or the
mode is CompositingCaption and the subtitle layer is null. -/
theorem c1_output_presence (rasterize : ℕ → ℕ → List TextDraw → AlphaImage)
    (encode : Image → List ℕ) (parse : String → DateTimeRec) (ver : String)
    (o : ICaptureCompositorOptions) :
    ((composite rasterize encode parse ver o).capture_caption.isSome
      = ((o.mode == CaptureMode.CompositingCaption || o.mode == CaptureMode.Both)
          && o.caption.isSome))
    ∧ ((composite rasterize encode parse ver o).capture_normal.isSome
      = ((o.mode == CaptureMode.VideoOnly || o.mode == CaptureMode.Both)
          || (o.mode == CaptureMode.CompositingCaption && o.caption.isNone))) := by
  obtain ⟨mode, capture, caption, superimpose, ccd, exif⟩ := o
  cases mode <;> cases caption <;> exact ⟨rfl, rfl⟩

/-- C2 is a code bug; this theorem evaluates the code at the failing
input: with mode Both and a subtitle layer present, the captioned output
is produced but its embedded metadata record carries
is_caption_composited = false, because the normal path's prologue
overwrote the shared record before either path serialized it.  The
claim (and the source's documented intent for the captioned output)
requires true here. -/
theorem c2_caption_flag_code_bug :
    ((composite trivialRasterize trivialEncode trivialParse "0.0.0"
        sampleBothOptions).capture_caption.map
      (fun b => b.embedded_record.is_caption_composited)) = some false := rfl

/-- C3: for every job, every produced output's embedded metadata record
has is_comment_composited equal to the presence of the comment overlay
description, independent of mode. -/
theorem c3_comment_flag_iff_comment_layer
    (rasterize : ℕ → ℕ → List TextDraw → AlphaImage)
    (encode : Image → List ℕ) (parse : String → DateTimeRec) (ver : String)
    (o : ICaptureCompositorOptions) :
    (((composite rasterize encode parse ver o).capture_normal.all
        (fun b => b.embedded_record.is_comment_composited == o.capture_comment_data.isSome))
      && ((composite rasterize encode parse ver o).capture_caption.all
        (fun b => b.embedded_record.is_comment_composited == o.capture_comment_data.isSome)))
      = true := by
  obtain ⟨mode, capture, caption, superimpose, ccd, exif⟩ := o
  cases mode <;> cases caption <;> cases superimpose <;> cases ccd <;> rfl

/-- C4 as stated is false: at this concrete input (mode Both, subtitle
layer present, no superimposition layer, no comment overlay) a captioned
production is scheduled and the orchestrator nevertheless selects the
zero-copy direct-transfer path for the normal production, so the direct
path is not the sole scheduled production. -/
theorem c4_direct_with_caption_counterexample :
    selectsDirectTransfer sampleBothOptions = true
      ∧ captionScheduled sampleBothOptions = true :=
  ⟨rfl, rfl⟩

/-- C4 amended: the orchestrator selects the zero-copy direct-transfer
path exactly when the normal output is scheduled and both the
superimpose layer and the comment layer description are null, regardless
of whether a captioned production is also scheduled. -/
theorem c4_direct_selection_characterization (o : ICaptureCompositorOptions) :
    selectsDirectTransfer o = true
      ↔ (normalScheduled o = true ∧ o.superimpose = none
          ∧ o.capture_comment_data = none) := by
  simp [selectsDirectTransfer, Option.isNone_iff_eq_none, and_assoc]

/-- C9: in every run of `composite`, the frame bitmap is consumed by at
most one production path, and no production path draws or otherwise
references the frame after the direct-transfer path has consumed it: in
the synchronous event sequence of the single-threaded worker, the
consuming event, when present, is the last frame-touching event, so the
captioned path's frame draw always precedes the zero-copy transfer. -/
theorem c9_frame_consume_ordering (o : ICaptureCompositorOptions) :
    frameSafe (syncFrameEvents o) = true := by
  obtain ⟨mode, capture, caption, superimpose, ccd, exif⟩ := o
  cases mode <;> cases caption <;> cases superimpose <;> cases ccd <;> rfl

/-- C10: whenever one `composite` run produces both a normal and a
captioned output, the two outputs embed identical metadata records, and
both embedded records carry is_caption_composited = false: every path's
flag prologue runs synchronously (the captioned path's first, the normal
path's last) before either path reaches its serialization step, so both
serializations read the shared record as the normal path left it. -/
theorem c10_shared_exif_race (rasterize : ℕ → ℕ → List TextDraw → AlphaImage)
    (encode : Image → List ℕ) (parse : String → DateTimeRec) (ver : String)
    (o : ICaptureCompositorOptions) :
    ((composite rasterize encode parse ver o).capture_normal.isSome
      && (composite rasterize encode parse ver o).capture_caption.isSome) = true →
    ((composite rasterize encode parse ver o).capture_normal.map
        (fun b => b.embedded_record)
      = (composite rasterize encode parse ver o).capture_caption.map
        (fun b => b.embedded_record))
    ∧ (((composite rasterize encode parse ver o).capture_normal.all
          (fun b => b.embedded_record.is_caption_composited == false))
        && ((composite rasterize encode parse ver o).capture_caption.all
          (fun b => b.embedded_record.is_caption_composited == false))) = true := by
  obtain ⟨mode, capture, caption, superimpose, ccd, exif⟩ := o
  cases mode <;> cases caption <;> cases superimpose <;> cases ccd <;> intro h <;>
    first
      | exact ⟨rfl, rfl⟩
      | exact (Bool.false_ne_true h).elim

/-- Witness for C10 at a concrete input where both outputs are
produced. -/
theorem c10_shared_exif_race_witness :
    (((composite trivialRasterize trivialEncode trivialParse "0.0.0"
          sampleBothOptions).capture_normal.isSome
        && (composite trivialRasterize trivialEncode trivialParse "0.0.0"
          sampleBothOptions).capture_caption.isSome) = true)
    ∧ (((composite trivialRasterize trivialEncode trivialParse "0.0.0"
          sampleBothOptions).capture_normal.map (fun b => b.embedded_record)
        = (composite trivialRasterize trivialEncode trivialParse "0.0.0"
          sampleBothOptions).capture_caption.map (fun b => b.embedded_record))
      ∧ ((((composite trivialRasterize trivialEncode trivialParse "0.0.0"
            sampleBothOptions).capture_normal.all
            (fun b => b.embedded_record.is_caption_composited == false))
          && (((composite trivialRasterize trivialEncode trivialParse "0.0.0"
            sampleBothOptions).capture_caption.all
            (fun b => b.embedded_record.is_caption_composited == false)))) = true)) :=
  ⟨rfl, c10_shared_exif_race trivialRasterize trivialEncode trivialParse "0.0.0"
    sampleBothOptions rfl⟩

/-- Helper: the state-threading comment drawing loop is extensionally a
map over the comment list, because each iteration overwrites every
styling field it reads except the text baseline and the global alpha,
which stay at the values they had before the loop. -/
theorem drawCommentsLoop_eq_map (wr hr : ℚ) (l : List CommentItem) :
    ∀ st : Ctx2DState, st.textBaseline = TextBaseline.top → st.globalAlpha = 1 →
    drawCommentsLoop wr hr st l = l.map (fun c =>
      { text := c.text
        x := c.left * wr
        y := c.top * hr
        state := { textBaseline := TextBaseline.top
                   fillStyle := c.color
                   fontBold := true
                   fontSizePx := c.font_size * wr
                   fontFamily := commentFontFamily
                   shadowOffsetX := 1.2 * wr
                   shadowOffsetY := 1.2 * wr
                   shadowBlur := 4 * wr
                   shadowColor := commentShadowColor
                   globalAlpha := 1 } }) := by
  induction l with
  | nil => intro st hb ha; rfl
  | cons c rest ih =>
    intro st hb ha
    rcases st with ⟨tb, fs, fb, fsz, ff, sx, sy, sb, sc, ga⟩
    dsimp only at hb ha
    subst hb
    subst ha
    simp only [drawCommentsLoop, List.map]
    exact congrArg (List.cons _) (ih _ rfl rfl)

/-- C5: for every comment overlay description and target canvas
dimensions, the rendering trace draws each comment item in input order
at position (left times width scale, top times height scale) with a
top-anchored text baseline, bold font of size font_size times the width
scale only, the item's fill color, a drop shadow offset 1.2 times the
width scale on both axes with blur radius 4 times the width scale and
shadow color black at 90 percent opacity, where the width scale is the
target width divided by the reference width and the height scale is the
target height divided by the reference height. -/
theorem c5_comment_draw_parameters (data : ICaptureCommentData) (w h : ℕ) :
    commentDraws data w h = data.comments.map (fun c =>
      { text := c.text
        x := c.left * ((w : ℚ) / data.container_width)
        y := c.top * ((h : ℚ) / data.container_height)
        state := { textBaseline := TextBaseline.top
                   fillStyle := c.color
                   fontBold := true
                   fontSizePx := c.font_size * ((w : ℚ) / data.container_width)
                   fontFamily := commentFontFamily
                   shadowOffsetX := 1.2 * ((w : ℚ) / data.container_width)
                   shadowOffsetY := 1.2 * ((w : ℚ) / data.container_width)
                   shadowBlur := 4 * ((w : ℚ) / data.container_width)
                   shadowColor := commentShadowColor
                   globalAlpha := 1 } }) :=
  drawCommentsLoop_eq_map _ _ data.comments _ rfl rfl

/-- Helper: every draw recorded by the comment loop runs at global
alpha 1 (the comment canvas context never has its global alpha set). -/
theorem commentDraws_all_globalAlpha (data : ICaptureCommentData) (w h : ℕ) :
    (commentDraws data w h).all (fun d => decide (d.state.globalAlpha = 1)) = true := by
  have hmap := drawCommentsLoop_eq_map ((w : ℚ) / data.container_width)
    ((h : ℚ) / data.container_height) data.comments
    { initialCtx2DState with textBaseline := TextBaseline.top } rfl rfl
  show (drawCommentsLoop _ _ _ data.comments).all _ = true
  rw [hmap]
  simp

/-- C6: the comment layer's opacity is applied exactly once, as a single
global alpha, when the whole rendered comment layer is merged onto the
target surface, and not per item: the per-item drawing trace does not
depend on the opacity and every recorded draw runs at global alpha 1;
the merge is a single full-layer draw at global alpha equal to the
overlay's opacity; merging any layer with opacity 0 leaves the target
surface identical to omitting the comment overlay entirely, and merging
with opacity 1 is full-strength source-over blending. -/
theorem c6_comment_opacity_single_global_alpha
    (rasterize : ℕ → ℕ → List TextDraw → AlphaImage)
    (canvas : Image) (data : ICaptureCommentData) (opq : ℚ) (layer : AlphaImage) :
    (commentDraws { data with opacity := opq } canvas.width canvas.height
        = commentDraws data canvas.width canvas.height)
    ∧ ((commentDraws data canvas.width canvas.height).all
        (fun d => decide (d.state.globalAlpha = 1)) = true)
    ∧ (compositeComments rasterize canvas data
        = drawAlphaImage canvas
            (rasterize canvas.width canvas.height
              (commentDraws data canvas.width canvas.height))
            data.opacity)
    ∧ (drawAlphaImage canvas layer 0 = canvas)
    ∧ (drawAlphaImage canvas layer 1 = sourceOverImage canvas layer) := by
  refine ⟨rfl, ?_, rfl, ?_, ?_⟩
  · exact commentDraws_all_globalAlpha data canvas.width canvas.height
  · simp only [drawAlphaImage, sourceOver, mul_zero, zero_mul, sub_zero, one_mul,
      zero_add]
  · simp only [drawAlphaImage, sourceOverImage, sourceOver, mul_one]

/-- C7 as stated is false: the primary metadata group built by
`setEXIFDataToCapture` contains no Orientation entry at all (the fourth
defaulted field the worker writes is YCbCrPositioning, a chroma
positioning default, not an orientation default), shown here at a
concrete input. -/
theorem c7_no_orientation_tag_counterexample :
    ImageIFDTag.Orientation ∉
      ((buildExif trivialParse "0.0.0" sampleExifData).zeroth.map Prod.fst) := by
  decide

/-- C7 amended: for every produced output, the embedded metadata block
contains a primary group with exactly the tags X/Y resolution (72/1),
resolution-unit and YCbCr-positioning defaults, the capture timestamp
formatted as a colon-separated string in the DateTime field, the
software string KonomiTV version (version), and the full metadata record
JSON-serialized and UTF-16 encoded under the vendor XPComment tag; and a
detail group with fixed version strings, a fixed
components-configuration marker, and the same timestamp duplicated into
the DateTimeOriginal and DateTimeDigitized fields. -/
theorem c7_exif_block_contents (parse : String → DateTimeRec) (ver : String)
    (d : ICaptureExifData) :
    ((buildExif parse ver d).zeroth.map Prod.fst
      = [ImageIFDTag.XResolution, ImageIFDTag.YResolution,
         ImageIFDTag.ResolutionUnit, ImageIFDTag.YCbCrPositioning,
         ImageIFDTag.DateTime, ImageIFDTag.Software, ImageIFDTag.XPComment])
    ∧ (List.lookup ImageIFDTag.XResolution (buildExif parse ver d).zeroth
        = some (TagValue.rational 72 1))
    ∧ (List.lookup ImageIFDTag.YResolution (buildExif parse ver d).zeroth
        = some (TagValue.rational 72 1))
    ∧ (List.lookup ImageIFDTag.ResolutionUnit (buildExif parse ver d).zeroth
        = some (TagValue.short 2))
    ∧ (List.lookup ImageIFDTag.YCbCrPositioning (buildExif parse ver d).zeroth
        = some (TagValue.short 1))
    ∧ (List.lookup ImageIFDTag.DateTime (buildExif parse ver d).zeroth
        = some (TagValue.ascii (formatExifDateTime (parse d.captured_at))))
    ∧ (List.lookup ImageIFDTag.Software (buildExif parse ver d).zeroth
        = some (TagValue.ascii ("KonomiTV version " ++ ver)))
    ∧ (List.lookup ImageIFDTag.XPComment (buildExif parse ver d).zeroth
        = some (TagValue.bytes (ucs2Bytes (jsonStringify d))))
    ∧ ((buildExif parse ver d).exifIFD
        = [(ExifIFDTag.ExifVersion, TagValue.ascii "0230"),
           (ExifIFDTag.ComponentsConfiguration,
             TagValue.ascii componentsConfigurationMarker),
           (ExifIFDTag.FlashpixVersion, TagValue.ascii "0100"),
           (ExifIFDTag.ColorSpace, TagValue.short 1),
           (ExifIFDTag.DateTimeOriginal,
             TagValue.ascii (formatExifDateTime (parse d.captured_at))),
           (ExifIFDTag.DateTimeDigitized,
             TagValue.ascii (formatExifDateTime (parse d.captured_at)))]) :=
  ⟨rfl, rfl, rfl, rfl, rfl, rfl, rfl, rfl, rfl⟩

/-- C8: when no superimposition layer and no comment overlay are
supplied, the zero-copy direct-transfer implementation and the
full-composite implementation of the normal output agree completely:
they write the same flags and produce the same encoded payload
(pixel-identical canvases fed to the same encoder, spliced with the same
EXIF block). -/
theorem c8_direct_eq_full_when_no_layers
    (rasterize : ℕ → ℕ → List TextDraw → AlphaImage)
    (encode : Image → List ℕ) (parse : String → DateTimeRec) (ver : String)
    (o : ICaptureCompositorOptions) (e : ICaptureExifData)
    (hs : o.superimpose = none) (hc : o.capture_comment_data = none) :
    compositeInNormalDirectMode encode parse ver o e
      = compositeInNormalMode rasterize encode parse ver o e := by
  simp only [compositeInNormalDirectMode, compositeInNormalMode,
    compositeInNormalDirectModeSync, compositeInNormalModeSync, hs, hc,
    Option.isSome_none, drawOpaqueImage, blankCanvas, transferFromImageBitmap]

/-- Witness for C8 at a concrete input with no extra layers. -/
theorem c8_direct_eq_full_witness :
    sampleNormalOptions.superimpose = none
    ∧ sampleNormalOptions.capture_comment_data = none
    ∧ compositeInNormalDirectMode trivialEncode trivialParse "0.0.0"
        sampleNormalOptions sampleExifData
      = compositeInNormalMode trivialRasterize trivialEncode trivialParse "0.0.0"
        sampleNormalOptions sampleExifData :=
  ⟨rfl, rfl, c8_direct_eq_full_when_no_layers trivialRasterize trivialEncode
    trivialParse "0.0.0" sampleNormalOptions sampleExifData rfl rfl⟩
